import Mathlib

/-
  Shallow embedding of the boolean-expression evaluator in src/boolexpr.c
  (the current snapshot of the module: the one with the SET_ERROR macro,
  bexpr_strerror, infix_to_postfix and the eval_postfix stub).

  Conventions of the embedding:
  * C strings are `List Char`; the terminating nul character is the end of
    the list.  None of the inputs considered contain an embedded nul.
  * Token ids are the inductive type `Tok`.  The token_info table in
    boolexpr.c documents "The id members here must match their array index",
    and token_get(id) returns &token_info[id]; accordingly the table is
    indexed by the position `Tok.idx` of each constructor.
  * bexpr_errno is threaded explicitly: functions that can SET_ERROR return
    `Except Int α`, the error value being the code stored in bexpr_errno;
    bexpr_evaluate takes the incoming errno and reports the final one
    (unchanged when no SET_ERROR fires, as in the C code where success
    leaves the global stale).
  * The dynamic arrays (token_list_t used as operator stack / output queue)
    are `List Tok`; the stack has its top at the head, the queue is appended
    at the tail.  Allocation, doubling and the debug printf calls have no
    observable effect on the computed values and are not modelled.
-/

set_option maxRecDepth 8000

/-- Token identities, from the enum in boolexpr.h together with the
token_info table invariant of boolexpr.c (ids match their array index:
false, true, "(", ")", "!", "&&", "||" in that order). -/
inductive Tok where
  | FALSE
  | TRUE
  | LPAREN
  | RPAREN
  | NOT
  | AND
  | OR
deriving DecidableEq, Inhabited

/-- Array index of a token id in the token_info table. -/
def Tok.idx : Tok → Nat
  | .FALSE => 0
  | .TRUE => 1
  | .LPAREN => 2
  | .RPAREN => 3
  | .NOT => 4
  | .AND => 5
  | .OR => 6

/-- BEXPR_LTR: left-to-right associativity. -/
def BEXPR_LTR : Nat := 0

/-- BEXPR_RTL: right-to-left associativity. -/
def BEXPR_RTL : Nat := 1

/-- BEXPR_UNARY: unary operator arity. -/
def BEXPR_UNARY : Nat := 1

/-- BEXPR_BINARY: binary operator arity. -/
def BEXPR_BINARY : Nat := 2

/-- Error codes from boolexpr.h. -/
def BEXPR_ERR_OK : Int := 0

/-- BEXPR_ERR_FATAL: fatal error, should not normally happen. -/
def BEXPR_ERR_FATAL : Int := 1

/-- BEXPR_ERR_EXPECTED_TOKEN: parser expected a token. -/
def BEXPR_ERR_EXPECTED_TOKEN : Int := 2

/-- BEXPR_ERR_INVALID_TOKEN: parser did not recognize a token. -/
def BEXPR_ERR_INVALID_TOKEN : Int := 3

/-- BEXPR_ERR_EXPECTED_LPAREN: expected left parenthesis. -/
def BEXPR_ERR_EXPECTED_LPAREN : Int := 4

/-- BEXPR_ERR_EXPECTED_RPAREN: expected right parenthesis. -/
def BEXPR_ERR_EXPECTED_RPAREN : Int := 5

/-- BEXPR_ERR_UNMATCHED_PARENS: unmatched parentheses. -/
def BEXPR_ERR_UNMATCHED_PARENS : Int := 6

/-- BEXPR_ERR_EMPTY_EXPRESSION: empty expression. -/
def BEXPR_ERR_EMPTY_EXPRESSION : Int := 7

/-- Token specification, struct token_s of boolexpr.c. -/
structure token_t where
  text : List Char
  id : Tok
  arity : Nat
  assoc : Nat
  prec : Nat
deriving DecidableEq, Inhabited

/-- MAX_TOKEN_LEN: maximum length of a token's text. -/
def MAX_TOKEN_LEN : Nat := 5

/-- The token_info table of boolexpr.c: text, id, arity, associativity and
precedence of each token, in array order. -/
def token_info : List token_t :=
  [⟨"false".toList, Tok.FALSE, 0, 0, 0⟩,
   ⟨"true".toList, Tok.TRUE, 0, 0, 0⟩,
   ⟨"(".toList, Tok.LPAREN, 0, BEXPR_LTR, 4⟩,
   ⟨")".toList, Tok.RPAREN, 0, BEXPR_LTR, 4⟩,
   ⟨"!".toList, Tok.NOT, BEXPR_UNARY, BEXPR_RTL, 3⟩,
   ⟨"&&".toList, Tok.AND, BEXPR_BINARY, BEXPR_LTR, 2⟩,
   ⟨"||".toList, Tok.OR, BEXPR_BINARY, BEXPR_LTR, 1⟩]

/-- token_get: element of token_info for a token id (token_get indexes the
table by id; ids are valid by construction of `Tok`, so the NULL case of
the C function cannot arise). -/
def token_get (id : Tok) : token_t :=
  token_info.getD id.idx default

/-- Precedence of a token id, read through token_get as in boolexpr.c. -/
def tok_prec (id : Tok) : Nat := (token_get id).prec

/-- Associativity of a token id, read through token_get as in boolexpr.c. -/
def tok_assoc (id : Tok) : Nat := (token_get id).assoc

/-- The token_chars table: valid characters in a token's text. -/
def token_chars : List Char :=
  ['(', ')', '!', '&', '|', '0', '1', 'a', 'e', 'f', 'l', 'r', 's', 't', 'u']

/-- is_token_char: membership in token_chars. -/
def is_token_char (ch : Char) : Bool := token_chars.contains ch

/-- C isspace for the default locale: space, tab, newline, vertical tab,
form feed, carriage return. -/
def c_isspace (ch : Char) : Bool :=
  ch = ' ' || ch = '\t' || ch = '\n' || ch = Char.ofNat 11 ||
  ch = Char.ofNat 12 || ch = '\r'

/-- skip_whitespace: advance past leading whitespace. -/
def skip_whitespace (s : List Char) : List Char := s.dropWhile c_isspace

/-- is_operand: token is one of the two literals (every `Tok` already passes
the is_valid_token range check of the C code). -/
def is_operand (id : Tok) : Bool := id = Tok.FALSE || id = Tok.TRUE

/-- strncmp(a, b, n) == 0, for strings without embedded nul characters: the
first n characters agree, a string shorter than n having to end exactly
where the other does. -/
def strncmp_eq : List Char → List Char → Nat → Bool
  | _, _, 0 => true
  | [], [], _ + 1 => true
  | [], _ :: _, _ + 1 => false
  | _ :: _, [], _ + 1 => false
  | a :: as, b :: bs, n + 1 => a = b && strncmp_eq as bs n

/-- Inner for-loop of token_parse: first token_info entry whose text matches
the first tlen characters of the input. -/
def find_tok (text : List Char) (tlen : Nat) : Option Tok :=
  (token_info.find? fun e => strncmp_eq e.text text tlen).map fun e => e.id

/-- Outer while-loop of token_parse: try lengths tlen down to 1 (greedy
matching); on a match the scan position advances by the matched length. -/
def try_len (text : List Char) : Nat → Option (Tok × List Char)
  | 0 => none
  | n + 1 =>
    match find_tok text (n + 1) with
    | some t => some (t, text.drop (n + 1))
    | none => try_len text n

/-- token_parse: skip whitespace, take the maximal run of token characters;
an empty run records BEXPR_ERR_EXPECTED_TOKEN, a run matching no table
entry at any length records BEXPR_ERR_INVALID_TOKEN; otherwise the id of
the matched entry and the rest of the input are returned. -/
def token_parse (input : List Char) : Except Int (Tok × List Char) :=
  let s := skip_whitespace input
  let run := s.takeWhile is_token_char
  if run.length = 0 then Except.error BEXPR_ERR_EXPECTED_TOKEN
  else
    match try_len s (min run.length MAX_TOKEN_LEN) with
    | some r => Except.ok r
    | none => Except.error BEXPR_ERR_INVALID_TOKEN

/-- Loop of bexpr_tokenize.  The fuel argument only bounds the recursion;
`tokenize_go_congr` below shows any fuel larger than the text length gives
the same value, so the fuel-exhaustion branch is unreachable from
`bexpr_tokenize`. -/
def tokenize_go (fuel : Nat) (text : List Char) (acc : List Tok) :
    Except Int (List Tok) :=
  match fuel with
  | 0 => Except.error BEXPR_ERR_FATAL
  | fuel + 1 =>
    if text = [] then Except.ok acc
    else
      match token_parse text with
      | Except.error e => Except.error e
      | Except.ok (t, rest) => tokenize_go fuel rest (acc ++ [t])

/-- bexpr_tokenize: skip leading whitespace, then parse token by token until
the end of the text, accumulating ids in the expression (token_parse never
returns an id bexpr_add_token would reject). -/
def bexpr_tokenize (text : List Char) : Except Int (List Tok) :=
  tokenize_go (text.length + 1) (skip_whitespace text) []

/-- Pop condition of the operator branch of infix_to_postfix:
(prec2 > prec1) || ((prec2 == prec1) && assoc1 == BEXPR_LTR), where
oper1 is the current token and oper2 the top of the stack. -/
def pop_cond (oper1 oper2 : Tok) : Bool :=
  decide (tok_prec oper1 < tok_prec oper2) ||
  (decide (tok_prec oper2 = tok_prec oper1) &&
   decide (tok_assoc oper1 = BEXPR_LTR))

/-- Inner while-loop of the operator branch of infix_to_postfix: while the
stack is not empty, stop at a left parenthesis, pop-and-enqueue while the
pop condition holds, stop otherwise.  (The tok1/tok2 NULL sanity check of
the C code cannot fire, every `Tok` having a table entry.) -/
def op_loop (oper1 : Tok) : List Tok → List Tok → List Tok × List Tok
  | [], queue => ([], queue)
  | oper2 :: rest, queue =>
    if oper2 = Tok.LPAREN then (oper2 :: rest, queue)
    else if pop_cond oper1 oper2 then op_loop oper1 rest (queue ++ [oper2])
    else (oper2 :: rest, queue)

/-- Operator branch of infix_to_postfix: run the pop loop, then push the
current operator. -/
def op_step (oper1 : Tok) (stack queue : List Tok) : List Tok × List Tok :=
  let p := op_loop oper1 stack queue
  (oper1 :: p.1, p.2)

/-- Right-parenthesis branch of infix_to_postfix: the C loop pulls from the
stack until it is EMPTY, enqueueing every token that is not a left
parenthesis; `last` tracks the oper1 variable (initially the current token,
then the most recently pulled one), which the sanity check after the loop
inspects. -/
def drain_all : List Tok → List Tok → Tok → List Tok × Tok
  | [], queue, last => (queue, last)
  | t :: rest, queue, _ =>
    drain_all rest (if t = Tok.LPAREN then queue else queue ++ [t]) t

/-- Drain after the main loop of infix_to_postfix: pull every remaining
operator to the queue; a left parenthesis records
BEXPR_ERR_UNMATCHED_PARENS and fails. -/
def final_drain : List Tok → List Tok → Except Int (List Tok)
  | [], queue => Except.ok queue
  | t :: rest, queue =>
    if t = Tok.LPAREN then Except.error BEXPR_ERR_UNMATCHED_PARENS
    else final_drain rest (queue ++ [t])

/-- Main loop of infix_to_postfix over the expression tokens, carrying the
operator stack (head = top) and the output queue. -/
def shunt : List Tok → List Tok → List Tok → Except Int (List Tok × List Tok)
  | [], stack, queue => Except.ok (stack, queue)
  | t :: ts, stack, queue =>
    if is_operand t then shunt ts stack (queue ++ [t])
    else if t = Tok.LPAREN then shunt ts (t :: stack) queue
    else if t = Tok.RPAREN then
      let d := drain_all stack queue t
      if d.2 = Tok.LPAREN then shunt ts [] d.1
      else Except.error BEXPR_ERR_EXPECTED_LPAREN
    else
      let p := op_step t stack queue
      shunt ts p.1 p.2

/-- infix_to_postfix of boolexpr.c (named to_rpn here): run the main loop on
an empty stack and queue, then drain the remaining operators. -/
def to_rpn (expr : List Tok) : Except Int (List Tok) :=
  match shunt expr [] [] with
  | Except.error e => Except.error e
  | Except.ok sq => final_drain sq.1 sq.2

/-- eval_postfix of boolexpr.c (named eval_rpn here): the function in the
source is a stub that stores true in *result and reports success without
reading the postfix queue. -/
def eval_rpn (_queue : List Tok) : Except Int Bool := Except.ok true

/-- Outcome of bexpr_evaluate: the returned status, the value stored through
the result pointer, and the final bexpr_errno. -/
structure EvalResult where
  success : Bool
  result : Bool
  errno : Int
deriving DecidableEq

/-- bexpr_evaluate: *result is set to false up front; an empty expression
records BEXPR_ERR_EMPTY_EXPRESSION and fails; otherwise the expression is
converted to postfix and the postfix queue evaluated, errors propagating
with the errno already set; on success the errno is left untouched. -/
def bexpr_evaluate (expr : List Tok) (errno0 : Int) : EvalResult :=
  if expr.length = 0 then ⟨false, false, BEXPR_ERR_EMPTY_EXPRESSION⟩
  else
    match to_rpn expr with
    | Except.error e => ⟨false, false, e⟩
    | Except.ok q =>
      match eval_rpn q with
      | Except.error e => ⟨false, false, e⟩
      | Except.ok r => ⟨true, r, errno0⟩

/-- error_messages table of boolexpr.c. -/
def error_messages : List String :=
  ["OK",
   "fatal error",
   "expected token",
   "invalid token",
   "expected left parenthesis",
   "expected right parenthesis",
   "unmatched parentheses",
   "expression is empty"]

/-- bexpr_strerror: the table entry for codes inside the table bounds, the
generic message otherwise. -/
def bexpr_strerror (errnum : Int) : String :=
  if errnum < 0 ∨ (error_messages.length : Int) ≤ errnum then "unknown error"
  else error_messages.getD errnum.toNat "unknown error"

/-- Right-parenthesis rule as the spec words it (spec section 4.4, step for
a right parenthesis): pop and enqueue until the stack is empty or the
popped token is a left parenthesis, which is discarded; tokens below it
stay on the stack; an emptied stack without a left parenthesis is the
expected-left-parenthesis failure (modelled by `none`). -/
def rparen_spec : List Tok → List Tok → Option (List Tok × List Tok)
  | [], _ => none
  | t :: rest, queue =>
    if t = Tok.LPAREN then some (rest, queue)
    else rparen_spec rest (queue ++ [t])

/-- Shunting-yard main loop as the spec words it: identical to `shunt`
except that the right-parenthesis case stops at the first left
parenthesis. -/
def shunt_spec : List Tok → List Tok → List Tok →
    Except Int (List Tok × List Tok)
  | [], stack, queue => Except.ok (stack, queue)
  | t :: ts, stack, queue =>
    if is_operand t then shunt_spec ts stack (queue ++ [t])
    else if t = Tok.LPAREN then shunt_spec ts (t :: stack) queue
    else if t = Tok.RPAREN then
      match rparen_spec stack queue with
      | none => Except.error BEXPR_ERR_EXPECTED_LPAREN
      | some sq => shunt_spec ts sq.1 sq.2
    else
      let p := op_step t stack queue
      shunt_spec ts p.1 p.2

/-- Infix-to-postfix conversion as the spec words it, for comparison with
`to_rpn`. -/
def to_rpn_spec (expr : List Tok) : Except Int (List Tok) :=
  match shunt_spec expr [] [] with
  | Except.error e => Except.error e
  | Except.ok sq => final_drain sq.1 sq.2

/-- Postfix evaluation as the spec words it (spec section 4.5): scan the
postfix sequence with a value stack; operands push their value, NOT pops
one value and pushes its negation, AND and OR pop two values (right operand
first) and push the operator applied to them; underflow, a parenthesis in
the postfix sequence, or anything but exactly one remaining value at the
end is the fatal-error failure. -/
def eval_rpn_spec_go : List Tok → List Bool → Except Int Bool
  | [], vs =>
    match vs with
    | [v] => Except.ok v
    | _ => Except.error BEXPR_ERR_FATAL
  | t :: ts, vs =>
    match t with
    | Tok.FALSE => eval_rpn_spec_go ts (false :: vs)
    | Tok.TRUE => eval_rpn_spec_go ts (true :: vs)
    | Tok.NOT =>
      match vs with
      | v :: rest => eval_rpn_spec_go ts ((!v) :: rest)
      | [] => Except.error BEXPR_ERR_FATAL
    | Tok.AND =>
      match vs with
      | r :: l :: rest => eval_rpn_spec_go ts ((l && r) :: rest)
      | _ => Except.error BEXPR_ERR_FATAL
    | Tok.OR =>
      match vs with
      | r :: l :: rest => eval_rpn_spec_go ts ((l || r) :: rest)
      | _ => Except.error BEXPR_ERR_FATAL
    | _ => Except.error BEXPR_ERR_FATAL

/-- Postfix evaluation as the spec words it, started on an empty value
stack, for comparison with the `eval_rpn` stub. -/
def eval_rpn_spec (queue : List Tok) : Except Int Bool :=
  eval_rpn_spec_go queue []

/- Supporting lemmas -/

lemma length_dropWhile_le' (p : Char → Bool) (l : List Char) :
    (l.dropWhile p).length ≤ l.length := by
  induction l with
  | nil => simp [List.dropWhile]
  | cons a l ih =>
    rw [List.dropWhile_cons]
    split
    · exact le_trans ih (by simp)
    · simp

lemma try_len_drop (s : List Char) :
    ∀ (k : Nat) (t : Tok) (rest : List Char),
      try_len s k = some (t, rest) → ∃ j, 1 ≤ j ∧ rest = s.drop j := by
  intro k
  induction k with
  | zero => intro t rest h; simp [try_len] at h
  | succ n ih =>
    intro t rest h
    simp only [try_len] at h
    cases hf : find_tok s (n + 1) with
    | some t0 =>
      rw [hf] at h
      simp at h
      exact ⟨n + 1, by omega, h.2.symm⟩
    | none =>
      rw [hf] at h
      simp at h
      exact ih t rest h

lemma token_parse_shrinks (input : List Char) (t : Tok) (rest : List Char)
    (h : token_parse input = Except.ok (t, rest)) : rest.length < input.length := by
  have hs : (skip_whitespace input).length ≤ input.length :=
    length_dropWhile_le' _ _
  by_cases h0 : ((skip_whitespace input).takeWhile is_token_char).length = 0
  · simp [token_parse, h0] at h
  · have hne : skip_whitespace input ≠ [] := by
      intro heq
      rw [heq] at h0
      simp at h0
    cases htl : try_len (skip_whitespace input)
        (min ((skip_whitespace input).takeWhile is_token_char).length
          MAX_TOKEN_LEN) with
    | none => simp [token_parse, h0, htl] at h
    | some r =>
      have hr : r = (t, rest) := by
        simp [token_parse, h0, htl] at h
        exact h
      obtain ⟨j, hj1, hj2⟩ := try_len_drop _ _ t rest (by rw [htl, hr])
      have hpos : 1 ≤ (skip_whitespace input).length := by
        cases hsw : skip_whitespace input with
        | nil => exact absurd hsw hne
        | cons a l => simp [hsw]
      rw [hj2, List.length_drop]
      omega

/-- Fuel irrelevance for the tokenizer loop: any fuel above the length of
the remaining text computes the same value, so the fuel-exhaustion branch
of `tokenize_go` is unreachable from `bexpr_tokenize`. -/
lemma tokenize_go_congr :
    ∀ (n : Nat) (text : List Char), text.length ≤ n →
      ∀ (fuel1 fuel2 : Nat) (acc : List Tok),
        text.length < fuel1 → text.length < fuel2 →
        tokenize_go fuel1 text acc = tokenize_go fuel2 text acc := by
  intro n
  induction n with
  | zero =>
    intro text hbound fuel1 fuel2 acc h1 h2
    have htext : text = [] := by
      cases text with
      | nil => rfl
      | cons a l => simp at hbound
    subst htext
    cases fuel1 with
    | zero => omega
    | succ f1 =>
      cases fuel2 with
      | zero => omega
      | succ f2 => simp [tokenize_go]
  | succ n ih =>
    intro text hbound fuel1 fuel2 acc h1 h2
    cases fuel1 with
    | zero => omega
    | succ f1 =>
      cases fuel2 with
      | zero => omega
      | succ f2 =>
        by_cases hnil : text = []
        · simp [tokenize_go, hnil]
        · cases hp : token_parse text with
          | error e => simp [tokenize_go, hnil, hp]
          | ok pr =>
            obtain ⟨t, rest⟩ := pr
            have hlt : rest.length < text.length :=
              token_parse_shrinks text t rest hp
            have heq := ih rest (by omega) f1 f2 (acc ++ [t])
              (by omega) (by omega)
            simp [tokenize_go, hnil, hp, heq]

/-- Pop test of the operator case as claim C4 words it: the top of the
stack is not a left parenthesis, and either the top's precedence is
strictly greater than the current operator's precedence, or the precedences
are equal and the current operator is left-associative. -/
def claim_pops (cur top : Tok) : Bool :=
  decide (top ≠ Tok.LPAREN) &&
  (decide (tok_prec cur < tok_prec top) ||
   (decide (tok_prec top = tok_prec cur) &&
    decide (tok_assoc cur = BEXPR_LTR)))

lemma claim_pops_eq (cur top : Tok) :
    claim_pops cur top = (decide (top ≠ Tok.LPAREN) && pop_cond cur top) := rfl

lemma op_loop_eq (cur : Tok) (stack : List Tok) :
    ∀ queue, op_loop cur stack queue =
      (stack.dropWhile (claim_pops cur),
       queue ++ stack.takeWhile (claim_pops cur)) := by
  induction stack with
  | nil => intro queue; simp [op_loop]
  | cons top rest ih =>
    intro queue
    by_cases hL : top = Tok.LPAREN
    · subst hL
      simp [op_loop, claim_pops]
    · by_cases hc : pop_cond cur top = true
      · have hcp : claim_pops cur top = true := by
          rw [claim_pops_eq, hc]
          simp [hL]
        simp [op_loop, hL, hc, hcp, ih]
      · have hcp : claim_pops cur top = false := by
          rw [claim_pops_eq]
          simp [hc, hL]
        simp [op_loop, hL, hc, hcp]

/- Claim theorems -/

/-- Token sequence of the expression "( true && ( false || true ) )". -/
def c1_input : List Tok :=
  [Tok.LPAREN, Tok.TRUE, Tok.AND, Tok.LPAREN, Tok.FALSE, Tok.OR, Tok.TRUE,
   Tok.RPAREN, Tok.RPAREN]

/-- Claim C1 evaluated on the code: the right-parenthesis branch of
infix_to_postfix does NOT stop at the first left parenthesis.  Its loop
drains the entire operator stack, so for the nested example
"( true && ( false || true ) )" the conversion fails with
BEXPR_ERR_EXPECTED_LPAREN instead of succeeding, while the conversion that
follows the claim's rule (stop at the first left parenthesis, tokens below
it staying on the stack) succeeds on the same input. -/
theorem c1_rparen_drains_whole_stack :
    to_rpn c1_input = Except.error BEXPR_ERR_EXPECTED_LPAREN
    ∧ bexpr_evaluate c1_input 0 = ⟨false, false, BEXPR_ERR_EXPECTED_LPAREN⟩
    ∧ to_rpn_spec c1_input =
        Except.ok [Tok.TRUE, Tok.FALSE, Tok.TRUE, Tok.OR, Tok.AND] :=
  ⟨rfl, rfl, rfl⟩

/-- Claim C2 evaluated on the code: eval_postfix in the source is a stub
that ignores the postfix queue and reports success with result true, so
the single-token expression FALSE evaluates to true, whereas the value
stack evaluation the claim describes yields false on the same postfix
sequence. -/
theorem c2_eval_is_stub :
    bexpr_evaluate [Tok.FALSE] 0 = ⟨true, true, 0⟩
    ∧ eval_rpn [Tok.FALSE] = Except.ok true
    ∧ to_rpn [Tok.FALSE] = Except.ok [Tok.FALSE]
    ∧ eval_rpn_spec [Tok.FALSE] = Except.ok false :=
  ⟨rfl, rfl, rfl, rfl⟩

/-- Claim C3: for every non-empty expression whose infix-to-postfix
conversion succeeds, bexpr_evaluate reports success with result true,
regardless of the tokens, and bexpr_errno is left untouched. -/
theorem c3_success_always_true (expr : List Tok) (errno0 : Int)
    (hne : expr ≠ []) (hok : (to_rpn expr).isOk = true) :
    bexpr_evaluate expr errno0 = ⟨true, true, errno0⟩ := by
  have hlen : ¬ expr.length = 0 := by
    simpa [List.length_eq_zero] using hne
  cases hq : to_rpn expr with
  | error e => rw [hq] at hok; simp [Except.isOk, Except.toBool] at hok
  | ok q => simp [bexpr_evaluate, hlen, hq, eval_rpn]

/-- Witness for C3 at the single-token expression FALSE. -/
theorem c3_witness :
    ([Tok.FALSE] ≠ ([] : List Tok))
    ∧ (to_rpn [Tok.FALSE]).isOk = true
    ∧ bexpr_evaluate [Tok.FALSE] 0 = ⟨true, true, 0⟩ :=
  ⟨by decide, rfl, c3_success_always_true [Tok.FALSE] 0 (by decide) rfl⟩

/-- Claim C4: in the operator branch, the loop pops the top to the output
queue exactly while the top is not a left parenthesis and the claim's
precedence test holds (top's precedence strictly greater, or equal with
the current operator left-associative), stops otherwise, and then pushes
the current operator; the table gives NOT precedence 3, AND 2, OR 1, AND
and OR left-associative and NOT right-associative. -/
theorem c4_operator_precedence_loop :
    (∀ cur stack queue, cur = Tok.NOT ∨ cur = Tok.AND ∨ cur = Tok.OR →
      op_step cur stack queue =
        (cur :: stack.dropWhile (claim_pops cur),
         queue ++ stack.takeWhile (claim_pops cur)))
    ∧ tok_prec Tok.NOT = 3 ∧ tok_prec Tok.AND = 2 ∧ tok_prec Tok.OR = 1
    ∧ tok_assoc Tok.AND = BEXPR_LTR ∧ tok_assoc Tok.OR = BEXPR_LTR
    ∧ tok_assoc Tok.NOT = BEXPR_RTL := by
  refine ⟨fun cur stack queue _ => ?_, rfl, rfl, rfl, rfl, rfl, rfl⟩
  simp [op_step, op_loop_eq]

/-- Witness for C4: the AND operator against a stack holding NOT below a
left parenthesis pops the NOT (precedence 3 > 2) and stops at the
parenthesis. -/
theorem c4_witness :
    op_step Tok.AND [Tok.NOT, Tok.LPAREN] [Tok.TRUE] =
      (Tok.AND :: [Tok.NOT, Tok.LPAREN].dropWhile (claim_pops Tok.AND),
       [Tok.TRUE] ++ [Tok.NOT, Tok.LPAREN].takeWhile (claim_pops Tok.AND)) :=
  c4_operator_precedence_loop.1 Tok.AND [Tok.NOT, Tok.LPAREN] [Tok.TRUE]
    (Or.inr (Or.inl rfl))

/-- Counterexample to claim C5: tokenizing "true XOR false" fails, but the
error code recorded is BEXPR_ERR_EXPECTED_TOKEN, not the
BEXPR_ERR_INVALID_TOKEN the claim names. -/
theorem c5_counterexample :
    bexpr_tokenize ("true XOR false".toList) =
      Except.error BEXPR_ERR_EXPECTED_TOKEN
    ∧ BEXPR_ERR_EXPECTED_TOKEN ≠ BEXPR_ERR_INVALID_TOKEN :=
  ⟨rfl, by decide⟩

/-- Claim C5 as amended: tokenizing "true XOR false" fails with the
expected-token condition, because a character outside the fixed token
alphabet leaves the maximal alphabet-character run empty, which token_parse
rejects with BEXPR_ERR_EXPECTED_TOKEN. -/
theorem c5_amended_expected_token :
    bexpr_tokenize ("true XOR false".toList) =
      Except.error BEXPR_ERR_EXPECTED_TOKEN
    ∧ (∀ (input : List Char) (c : Char) (rest : List Char),
        skip_whitespace input = c :: rest → is_token_char c = false →
        token_parse input = Except.error BEXPR_ERR_EXPECTED_TOKEN) := by
  refine ⟨rfl, fun input c rest hskip hc => ?_⟩
  simp only [token_parse]
  rw [hskip]
  simp [List.takeWhile_cons, hc]

/-- Witness for C5 at the one-character input "X". -/
theorem c5_witness :
    skip_whitespace ['X'] = 'X' :: []
    ∧ is_token_char 'X' = false
    ∧ token_parse ['X'] = Except.error BEXPR_ERR_EXPECTED_TOKEN :=
  ⟨rfl, rfl, c5_amended_expected_token.2 ['X'] 'X' [] rfl rfl⟩

/-- Claim C6: a left parenthesis met while draining the remaining operator
stack after the main loop makes the conversion fail with
BEXPR_ERR_UNMATCHED_PARENS; in particular "( true && false" tokenizes to
LPAREN TRUE AND FALSE and its evaluation fails with that code. -/
theorem c6_unmatched_parens :
    (∀ stack queue : List Tok, Tok.LPAREN ∈ stack →
      final_drain stack queue = Except.error BEXPR_ERR_UNMATCHED_PARENS)
    ∧ bexpr_tokenize ("( true && false".toList) =
        Except.ok [Tok.LPAREN, Tok.TRUE, Tok.AND, Tok.FALSE]
    ∧ bexpr_evaluate [Tok.LPAREN, Tok.TRUE, Tok.AND, Tok.FALSE] 0 =
        ⟨false, false, BEXPR_ERR_UNMATCHED_PARENS⟩ := by
  refine ⟨?_, rfl, rfl⟩
  intro stack
  induction stack with
  | nil => intro queue h; simp at h
  | cons t rest ih =>
    intro queue h
    by_cases ht : t = Tok.LPAREN
    · simp [final_drain, ht]
    · have hmem : Tok.LPAREN ∈ rest := by
        rcases List.mem_cons.mp h with h1 | h1
        · exact absurd h1.symm ht
        · exact h1
      simp [final_drain, ht, ih _ hmem]

/-- Witness for C6 at a stack holding a single left parenthesis. -/
theorem c6_witness :
    Tok.LPAREN ∈ [Tok.LPAREN]
    ∧ final_drain [Tok.LPAREN] [] = Except.error BEXPR_ERR_UNMATCHED_PARENS :=
  ⟨by decide, c6_unmatched_parens.1 [Tok.LPAREN] [] (by decide)⟩

/-- Claim C7: evaluating an expression with zero tokens fails with
BEXPR_ERR_EMPTY_EXPRESSION and leaves the result output false. -/
theorem c7_empty_expression (errno0 : Int) :
    bexpr_evaluate [] errno0 = ⟨false, false, BEXPR_ERR_EMPTY_EXPRESSION⟩ :=
  rfl

/-- Claim C8: whenever bexpr_evaluate reports failure, the result output is
false. -/
theorem c8_result_false_on_failure (expr : List Tok) (errno0 : Int)
    (h : (bexpr_evaluate expr errno0).success = false) :
    (bexpr_evaluate expr errno0).result = false := by
  by_cases hlen : expr.length = 0
  · simp [bexpr_evaluate, hlen]
  · cases hq : to_rpn expr with
    | error e => simp [bexpr_evaluate, hlen, hq]
    | ok q =>
      exfalso
      simp [bexpr_evaluate, hlen, hq, eval_rpn] at h

/-- Witness for C8 at the empty expression. -/
theorem c8_witness :
    (bexpr_evaluate [] 0).success = false
    ∧ (bexpr_evaluate [] 0).result = false :=
  ⟨rfl, c8_result_false_on_failure [] 0 rfl⟩

/-- Claim C9: bexpr_strerror returns the message table entry for each of
the eight defined codes and the generic "unknown error" string for every
integer outside 0..7. -/
theorem c9_strerror_messages :
    (∀ n : Int, n < 0 ∨ 8 ≤ n → bexpr_strerror n = "unknown error")
    ∧ bexpr_strerror 0 = "OK"
    ∧ bexpr_strerror 1 = "fatal error"
    ∧ bexpr_strerror 2 = "expected token"
    ∧ bexpr_strerror 3 = "invalid token"
    ∧ bexpr_strerror 4 = "expected left parenthesis"
    ∧ bexpr_strerror 5 = "expected right parenthesis"
    ∧ bexpr_strerror 6 = "unmatched parentheses"
    ∧ bexpr_strerror 7 = "expression is empty" := by
  refine ⟨?_, rfl, rfl, rfl, rfl, rfl, rfl, rfl, rfl⟩
  intro n h
  have hc : n < 0 ∨ (error_messages.length : Int) ≤ n := by
    rw [show ((error_messages.length : Int)) = 8 from rfl]
    exact h
  unfold bexpr_strerror
  rw [if_pos hc]

/-- Witness for C9 at the out-of-range codes -1 and 8. -/
theorem c9_witness :
    ((-1 : Int) < 0 ∨ (8 : Int) ≤ -1)
    ∧ bexpr_strerror (-1) = "unknown error"
    ∧ ((8 : Int) < 0 ∨ (8 : Int) ≤ 8)
    ∧ bexpr_strerror 8 = "unknown error" :=
  ⟨Or.inl (by decide), c9_strerror_messages.1 (-1) (Or.inl (by decide)),
   Or.inr (by decide), c9_strerror_messages.1 8 (Or.inr (by decide))⟩

/-- Boolean test that an Except value is exactly the given ok pair. -/
def is_ok_pair (r : Except Int (Tok × List Char)) (v : Tok × List Char) :
    Bool :=
  match r with
  | Except.ok w => decide (w = v)
  | Except.error _ => false

lemma is_ok_pair_iff (r : Except Int (Tok × List Char))
    (v : Tok × List Char) : is_ok_pair r v = true ↔ r = Except.ok v := by
  cases r <;> simp [is_ok_pair]

lemma token_text_short : ∀ e ∈ token_info, e.text.length < 6 := by decide

/-- Claim C10: every non-empty prefix of a table entry's text parses with no
error to the id of a table entry extending that prefix, consuming the whole
prefix; in particular "tr" tokenizes as the single token TRUE and "fal" as
FALSE. -/
theorem c10_prefix_tokens :
    (∀ e ∈ token_info, ∀ k : Nat, 1 ≤ k → k ≤ e.text.length →
      ∃ x ∈ token_info,
        token_parse (e.text.take k) = Except.ok (x.id, [])
        ∧ (e.text.take k).isPrefixOf x.text = true)
    ∧ bexpr_tokenize ("tr".toList) = Except.ok [Tok.TRUE]
    ∧ bexpr_tokenize ("fal".toList) = Except.ok [Tok.FALSE] := by
  refine ⟨?_, rfl, rfl⟩
  intro e he k hk1 hk2
  have hk6 : k < 6 := lt_of_le_of_lt hk2 (token_text_short e he)
  have H : ∀ e2 ∈ token_info, ∀ k2 < 6, 1 ≤ k2 → k2 ≤ e2.text.length →
      (token_info.any fun x =>
        is_ok_pair (token_parse (e2.text.take k2)) (x.id, []) &&
        (e2.text.take k2).isPrefixOf x.text) = true := by decide
  obtain ⟨x, hx, hb⟩ := List.any_eq_true.mp (H e he k hk6 hk1 hk2)
  rw [Bool.and_eq_true] at hb
  exact ⟨x, hx, (is_ok_pair_iff _ _).mp hb.1, hb.2⟩

/-- Witness for C10 at the two-character prefix "tr" of the table entry for
"true". -/
theorem c10_witness :
    ∃ x ∈ token_info,
      token_parse ((⟨"true".toList, Tok.TRUE, 0, 0, 0⟩ : token_t).text.take 2)
        = Except.ok (x.id, [])
      ∧ (((⟨"true".toList, Tok.TRUE, 0, 0, 0⟩ : token_t).text.take 2).isPrefixOf
          x.text) = true :=
  c10_prefix_tokens.1 ⟨"true".toList, Tok.TRUE, 0, 0, 0⟩ (by decide) 2
    (by decide) (by decide)
